import Mathlib

set_option autoImplicit false

/-!
Shallow embedding of `src/net.rs` (TLS connector construction, the `Auth`
mode selector and the `is_ssl` URL scanner) and proofs about it.

Modelling conventions:
* Machinery of the OpenSSL bindings is captured by an environment `SslEnv`
  giving the outcome of each fallible OpenSSL call (`set_cipher_list`,
  `set_ca_file`, `set_certificate_file`, `set_private_key_file`); an outcome
  is `Except ErrorStack Unit`, mirroring `Result<(), ErrorStack>`.
* Rust `try!` is the `Except` short-circuit; `pretty_panic!` (process-fatal)
  is modelled as `Except.error` carrying the formatted message, so a function
  that may terminate the process returns `Except String _`.
* Network side effects (`Request::with_connector` actually opening a
  connection) are outside the repository and are abstracted away: request
  construction records the transport it was given.
-/

namespace Kitchensink

/-- Opaque error data produced by the OpenSSL library (its `ErrorStack`). -/
abbrev ErrorStack := String

/-- Protocol-method handles an `SslConnectorBuilder` can be given.
`tlsV1_2` models `TLSv1_2_method()` (fixed to TLS 1.2, no cross-version
negotiation); `tls` models the version-flexible `TLS_method()`. -/
inductive SslMethod where
  | tls
  | tlsV1
  | tlsV1_1
  | tlsV1_2
  deriving DecidableEq, Repr

/-- File-type argument of `set_certificate_file` / `set_private_key_file`;
the source always passes `X509_FILETYPE_PEM`. -/
inductive X509Filetype where
  | pem
  | asn1
  deriving DecidableEq, Repr

/-- Outcomes of the fallible OpenSSL configuration calls made by
`ssl_connector`, one field per distinct call, indexed by the argument the
source passes (path, and file type where the binding takes one). -/
structure SslEnv where
  set_cipher_list : String → Except ErrorStack Unit
  set_ca_file : String → Except ErrorStack Unit
  set_certificate_file : String → X509Filetype → Except ErrorStack Unit
  set_private_key_file : String → X509Filetype → Except ErrorStack Unit

/-- A built `SslConnector`: the TLS context configuration accumulated by
`ssl_connector` before `connector.build()`. -/
structure SslConnector where
  method : SslMethod
  cipher_list : String
  ca_file : String
  certificate_file : Option (String × X509Filetype)
  private_key_file : Option (String × X509Filetype)
  deriving DecidableEq, Repr

/-- The exact cipher string the source passes to `set_cipher_list` (the Rust
source writes it as a single string literal with `\` line continuations). -/
def cipher_list : String :=
  "DHE-RSA-AES128-GCM-SHA256:DHE-RSA-AES256-GCM-SHA384:DHE-RSA-AES128-SHA256:DHE-RSA-AES256-SHA256:DHE-RSA-CAMELLIA128-SHA:DHE-RSA-AES128-SHA:DHE-RSA-CAMELLIA256-SHA:DHE-RSA-AES256-SHA:AES128-GCM-SHA256:AES256-GCM-SHA384:CAMELLIA128-SHA:AES128-SHA:!aNULL:!eNULL:!EXPORT:!DES:!3DES:!RC4:!MD5"

/-- Embedding of `ssl_connector` from `src/net.rs`: builds on
`TLSv1_2_method()`, then `try!`s `set_cipher_list`, `set_ca_file`, and, for
each of the optional client certificate and key paths that is `Some`, the
corresponding load with `X509_FILETYPE_PEM`; on success returns the built
connector. Each `try!` is a `match` propagating the first `ErrorStack`. -/
def ssl_connector (env : SslEnv) (cacert : String) (cert : Option String)
    (key : Option String) : Except ErrorStack SslConnector :=
  match env.set_cipher_list cipher_list with
  | .error e => .error e
  | .ok _ =>
    match env.set_ca_file cacert with
    | .error e => .error e
    | .ok _ =>
      match (match cert with
             | some c => env.set_certificate_file c X509Filetype.pem
             | none => .ok ()) with
      | .error e => .error e
      | .ok _ =>
        match (match key with
               | some k => env.set_private_key_file k X509Filetype.pem
               | none => .ok ()) with
        | .error e => .error e
        | .ok _ =>
          .ok { method := SslMethod.tlsV1_2
                cipher_list := cipher_list
                ca_file := cacert
                certificate_file := cert.map (fun c => (c, X509Filetype.pem))
                private_key_file := key.map (fun k => (k, X509Filetype.pem)) }

/-- The `hyper_openssl::OpensslClient` wrapper (`OpensslClient::from`). -/
structure OpensslClient where
  connector : SslConnector
  deriving DecidableEq, Repr

/-- The `hyper::net::HttpsConnector` wrapper (`HttpsConnector::new`). -/
structure HttpsConnector where
  client : OpensslClient
  deriving DecidableEq, Repr

/-- Embedding of `https_connector` from `src/net.rs`: wraps a successful
`ssl_connector` result; on `Err(e)` the source runs
`pretty_panic!("Error opening certificate files: {}", e)`, which terminates
the process and is modelled as `Except.error` with that message. -/
def https_connector (env : SslEnv) (cacert : String) (cert : Option String)
    (key : Option String) : Except String HttpsConnector :=
  match ssl_connector env cacert cert key with
  | .ok connector => .ok { client := { connector := connector } }
  | .error e => .error ("Error opening certificate files: " ++ e)

/-- Header name introduced by `header! { (XAuthentication, "X-Authentication") => [String] }`. -/
def XAuthentication : String := "X-Authentication"

/-- Header map of a request or builder, as an association list in insertion
order (hyper's `Headers`). -/
abbrev Headers := List (String × String)

/-- Lookup of a header value by name (first entry with that name). -/
def Headers.get (hs : Headers) (name : String) : Option String :=
  match hs with
  | [] => none
  | (n, v) :: rest => if n = name then some v else Headers.get rest name

/-- Hyper's `Headers::set` / `RequestBuilder::header`: replaces any existing
entries with the given name by the single new entry. -/
def Headers.set (hs : Headers) (name : String) (value : String) : Headers :=
  (hs.filter fun p => p.1 != name) ++ [(name, value)]

/-- Number of entries carrying the given header name. -/
def Headers.count (hs : Headers) (name : String) : Nat :=
  (hs.filter fun p => p.1 == name).length

/-- The `Auth` enum from `src/net.rs`. -/
inductive Auth where
  | CertAuth (cacert : String) (cert : String) (key : String)
  | NoAuth
  | TokenAuth (cacert : String) (token : String)
  deriving DecidableEq, Repr

/-- A `hyper::Client`: either `Client::with_connector(conn)` over an HTTPS
connector, or the plain `Client::new()` with no TLS context. -/
inductive Client where
  | with_connector (conn : HttpsConnector)
  | new
  deriving DecidableEq, Repr

/-- Embedding of `Auth::client`: `CertAuth` builds an HTTPS connector from CA,
certificate and key paths; `TokenAuth` from the CA path only; `NoAuth` returns
`Client::new()`. A `pretty_panic!` inside `https_connector` propagates as the
`Except.error` (the process dies before any client exists). -/
def Auth.client (auth : Auth) (env : SslEnv) : Except String Client :=
  match auth with
  | .CertAuth cacert cert key =>
    match https_connector env cacert (some cert) (some key) with
    | .ok conn => .ok (Client.with_connector conn)
    | .error e => .error e
  | .TokenAuth cacert _ =>
    match https_connector env cacert none none with
    | .ok conn => .ok (Client.with_connector conn)
    | .error e => .error e
  | .NoAuth => .ok Client.new

/-- HTTP methods (`hyper::method::Method`). -/
inductive Method where
  | Options | Get | Post | Put | Delete | Head | Trace | Connect | Patch
  | Extension (s : String)
  deriving DecidableEq, Repr

/-- A parsed URL, reduced to what the embedded code observes: its (normalised)
scheme and the remainder of the string after the scheme's colon. -/
structure Url where
  scheme : String
  rest : String
  deriving DecidableEq, Repr

/-- Whether a character may appear in a URL scheme after the first letter. -/
def isSchemeTailChar (c : Char) : Bool :=
  c.isAlphanum || c == '+' || c == '-' || c == '.'

/-- Splits a character list at the first `:`; `none` when no colon occurs. -/
def schemeSplit : List Char → Option (List Char × List Char)
  | [] => none
  | c :: cs =>
    if c = ':' then some ([], cs)
    else
      match schemeSplit cs with
      | none => none
      | some (sch, rest) => some (c :: sch, rest)

/-- Embedding of `Url::parse` of the `url` crate, down to what the embedded
code observes: a string parses only when it begins `scheme ":"` with the
scheme a nonempty ASCII-letter-led run of letters, digits, `+`, `-` or `.`;
the crate lowercases the scheme. A string with no such prefix (for example
a relative reference like "not a url") fails to parse. -/
def Url.parse (s : String) : Option Url :=
  match schemeSplit s.data with
  | none => none
  | some ([], _) => none
  | some (c :: cs, rest) =>
    if c.isAlpha && cs.all isSchemeTailChar then
      some { scheme := String.mk ((c :: cs).map Char.toLower), rest := String.mk rest }
    else none

/-- Embedding of `is_ssl` from `src/net.rs`:
`server_urls.into_iter().any(|url| "https" == Url::parse(&url).unwrap_or_else(pretty_panic).scheme())`.
`any` examines elements left to right and stops at the first `true`, so the
`pretty_panic!` on a parse failure fires only when an unparseable element is
reached before any element with scheme "https"; it is modelled as
`Except.error` with the formatted message. -/
def is_ssl (server_urls : List String) : Except String Bool :=
  match server_urls with
  | [] => .ok false
  | url :: rest =>
    match Url.parse url with
    | none => .error ("Error parsing url " ++ url)
    | some u => if u.scheme = "https" then .ok true else is_ssl rest

/-- A `Request<Fresh>`: method, URL, the connector the request was built over
(`none` for `Request::new`, which uses the default transport), and its
headers. The network-level `Result` of `Request::with_connector` (opening the
connection) is outside this repository and assumed to succeed; its `unwrap`
therefore never fires here. -/
structure Request where
  method : Method
  url : Url
  connector : Option HttpsConnector
  headers : Headers
  deriving DecidableEq, Repr

/-- Embedding of `Auth::request`: `CertAuth` builds the mutual-TLS connector
and a request over it; `TokenAuth` builds the CA-only connector, a request
over it, then `headers_mut().set(XAuthentication(token))`; `NoAuth` builds
`Request::new` on the default transport. A `pretty_panic!` inside
`https_connector` propagates as the `Except.error`. -/
def Auth.request (auth : Auth) (env : SslEnv) (method : Method) (url : Url) :
    Except String Request :=
  match auth with
  | .CertAuth cacert cert key =>
    match https_connector env cacert (some cert) (some key) with
    | .error e => .error e
    | .ok conn =>
      .ok { method := method, url := url, connector := some conn, headers := [] }
  | .TokenAuth cacert token =>
    match https_connector env cacert none none with
    | .error e => .error e
    | .ok conn =>
      .ok { method := method, url := url, connector := some conn,
            headers := Headers.set [] XAuthentication token }
  | .NoAuth => .ok { method := method, url := url, connector := none, headers := [] }

/-- A `hyper::client::RequestBuilder`, split into its header map and all of
its other fields (client reference, method, URL, body), which `auth_header`
never touches; the latter are abstracted as a value of an arbitrary type so
that their preservation is provable for every choice of them. -/
structure RequestBuilder (α : Type) where
  headers : Headers
  rest : α
  deriving DecidableEq, Repr

/-- Hyper's `RequestBuilder::header(h)`: sets (replacing) the header. -/
def RequestBuilder.header {α : Type} (rb : RequestBuilder α) (name : String)
    (value : String) : RequestBuilder α :=
  { rb with headers := Headers.set rb.headers name value }

/-- Embedding of `Auth::auth_header`: under `TokenAuth` it sets the
`XAuthentication` header on the builder; every other variant returns the
builder unchanged (the `_ => request_builder` arm). -/
def Auth.auth_header {α : Type} (auth : Auth) (request_builder : RequestBuilder α) :
    RequestBuilder α :=
  match auth with
  | .TokenAuth _ token => request_builder.header XAuthentication token
  | _ => request_builder

/-- Splits a character list on a separator character (structural recursion,
so concrete instances reduce in the kernel). -/
def splitOnChar (sep : Char) : List Char → List (List Char)
  | [] => [[]]
  | c :: cs =>
    if c = sep then [] :: splitOnChar sep cs
    else
      match splitOnChar sep cs with
      | [] => [[c]]
      | g :: gs => (c :: g) :: gs

/-- Splits a string on a separator character. -/
def splitString (sep : Char) (s : String) : List String :=
  (splitOnChar sep s.data).map (fun cs => String.mk cs)

/-- The `:`-separated tokens of the cipher string passed to `set_cipher_list`. -/
def cipherTokens : List String := splitString ':' cipher_list

/-- Whether a cipher-string token is an exclusion (starts with `!`). -/
def isExclusionToken (t : String) : Bool :=
  match t.data with
  | c :: _ => c = '!'
  | [] => false

/-- The positively named cipher suites of the allow-list. -/
def allowTokens : List String := cipherTokens.filter (fun t => !(isExclusionToken t))

/-- The `!`-prefixed exclusion tokens of the cipher string. -/
def exclusionTokens : List String := cipherTokens.filter isExclusionToken

/-- Classification following the spec's words, by standard OpenSSL suite
naming: a suite offers forward secrecy iff its key exchange is ephemeral
Diffie-Hellman, i.e. its name begins `DHE-` or `ECDHE-`. -/
def isForwardSecrecySuite (s : String) : Bool :=
  ("DHE-".data).isPrefixOf s.data || ("ECDHE-".data).isPrefixOf s.data

/-- Classification following the spec's words, by standard OpenSSL suite
naming: a suite is AEAD iff it uses GCM, CCM or ChaCha20-Poly1305, i.e. its
name has a `GCM`, `CCM` or `CHACHA20` component. -/
def isAeadSuite (s : String) : Bool :=
  (splitString '-' s).contains "GCM" || (splitString '-' s).contains "CCM" ||
    (splitString '-' s).contains "CHACHA20"

/-- Whether a URL string parses and has scheme "https" (the Boolean the
closure inside `is_ssl` computes when it does not die). -/
def urlIsHttps (u : String) : Bool :=
  match Url.parse u with
  | some p => p.scheme == "https"
  | none => false

/-- An environment in which every OpenSSL configuration call succeeds. -/
def envAllOk : SslEnv :=
  { set_cipher_list := fun _ => .ok ()
    set_ca_file := fun _ => .ok ()
    set_certificate_file := fun _ _ => .ok ()
    set_private_key_file := fun _ _ => .ok () }

/-- An environment in which loading the CA file fails. -/
def envBadCa : SslEnv :=
  { envAllOk with set_ca_file := fun _ => .error "ca load failed" }

/-- An environment in which loading a private key file fails. -/
def envBadKey : SslEnv :=
  { envAllOk with set_private_key_file := fun _ _ => .error "key load failed" }

/-! Helper lemmas shared by several of the claim theorems below. -/

/-- When every OpenSSL call it makes succeeds, `ssl_connector` returns the
fully configured connector recording exactly the inputs it was given. -/
theorem ssl_connector_ok (env : SslEnv) (cacert : String) (cert key : Option String)
    (hcl : env.set_cipher_list cipher_list = .ok ())
    (hca : env.set_ca_file cacert = .ok ())
    (hcert : ∀ c, cert = some c → env.set_certificate_file c X509Filetype.pem = .ok ())
    (hkey : ∀ k, key = some k → env.set_private_key_file k X509Filetype.pem = .ok ()) :
    ssl_connector env cacert cert key =
      .ok { method := SslMethod.tlsV1_2
            cipher_list := cipher_list
            ca_file := cacert
            certificate_file := cert.map (fun c => (c, X509Filetype.pem))
            private_key_file := key.map (fun k => (k, X509Filetype.pem)) } := by
  cases cert with
  | none =>
    cases key with
    | none => simp [ssl_connector, hcl, hca]
    | some k => simp [ssl_connector, hcl, hca, hkey k rfl]
  | some c =>
    cases key with
    | none => simp [ssl_connector, hcl, hca, hcert c rfl]
    | some k => simp [ssl_connector, hcl, hca, hcert c rfl, hkey k rfl]

/-- Inversion: any connector `ssl_connector` returns is the fully configured
one (TLS 1.2 method, the fixed cipher string, the given CA and the given
optional client certificate/key, both loaded as PEM). -/
theorem ssl_connector_ok_inv (env : SslEnv) (cacert : String) (cert key : Option String)
    (c : SslConnector) (h : ssl_connector env cacert cert key = .ok c) :
    c = { method := SslMethod.tlsV1_2
          cipher_list := cipher_list
          ca_file := cacert
          certificate_file := cert.map (fun x => (x, X509Filetype.pem))
          private_key_file := key.map (fun x => (x, X509Filetype.pem)) } := by
  unfold ssl_connector at h
  repeat' split at h
  all_goals simp_all

/-- Setting a header makes lookup of that name return the new value. -/
theorem headers_get_set_self (hs : Headers) (name value : String) :
    Headers.get (Headers.set hs name value) name = some value := by
  induction hs with
  | nil => simp [Headers.set, Headers.get]
  | cons p rest ih =>
    obtain ⟨n, v⟩ := p
    by_cases h : n = name
    · simpa [Headers.set, List.filter_cons, h] using ih
    · simpa [Headers.set, List.filter_cons, h, Headers.get] using ih

/-- Setting a header leaves lookup of every other name unchanged. -/
theorem headers_get_set_ne (hs : Headers) (name value n : String) (h : n ≠ name) :
    Headers.get (Headers.set hs name value) n = Headers.get hs n := by
  have h' : name ≠ n := Ne.symm h
  induction hs with
  | nil => simp [Headers.set, Headers.get, h']
  | cons p rest ih =>
    obtain ⟨m, v2⟩ := p
    by_cases hm : m = name
    · simpa [Headers.set, List.filter_cons, hm, Headers.get, h'] using ih
    · by_cases hmn : m = n
      · simp [Headers.set, List.filter_cons, hm, Headers.get, hmn, h]
      · simpa [Headers.set, List.filter_cons, hm, Headers.get, hmn] using ih

/-- Setting a header leaves exactly one entry with that name. -/
theorem headers_count_set (hs : Headers) (name value : String) :
    Headers.count (Headers.set hs name value) name = 1 := by
  induction hs with
  | nil => simp [Headers.set, Headers.count]
  | cons p rest ih =>
    obtain ⟨n, v⟩ := p
    by_cases h : n = name
    · simp [Headers.set, Headers.count, List.filter_cons, h]
    · simp [Headers.set, Headers.count, List.filter_cons, h]

/-- Characterisation of `urlIsHttps` returning `true`. -/
theorem urlIsHttps_eq_true (u : String) :
    urlIsHttps u = true ↔ ∃ p, Url.parse u = some p ∧ p.scheme = "https" := by
  unfold urlIsHttps
  cases hp : Url.parse u with
  | none => simp
  | some p => simp [hp]

/-- Characterisation of `urlIsHttps` returning `false`. -/
theorem urlIsHttps_eq_false (u : String) :
    urlIsHttps u = false ↔ ∀ p, Url.parse u = some p → p.scheme ≠ "https" := by
  unfold urlIsHttps
  cases hp : Url.parse u with
  | none => simp [hp]
  | some p => simp [hp]

/-- On a list whose elements all parse, `is_ssl` returns `Ok` of the `any` of
`urlIsHttps` over the list. -/
theorem is_ssl_eq_any (urls : List String)
    (h : ∀ u ∈ urls, (Url.parse u).isSome) :
    is_ssl urls = .ok (urls.any urlIsHttps) := by
  induction urls with
  | nil => rfl
  | cons u rest ih =>
    have hu : (Url.parse u).isSome := h u (by simp)
    cases hp : Url.parse u with
    | none => simp [hp] at hu
    | some p =>
      by_cases hs : p.scheme = "https"
      · simp [is_ssl, hp, hs, urlIsHttps, List.any_cons]
      · have hrest := ih (fun v hv => h v (by simp [hv]))
        simp [is_ssl, hp, hs, urlIsHttps, List.any_cons, hrest]

/-- On lists whose elements all parse, `is_ssl` is invariant under
permutation of the input. -/
theorem is_ssl_perm (l l' : List String) (hperm : l.Perm l')
    (h : ∀ u ∈ l, (Url.parse u).isSome) :
    is_ssl l = is_ssl l' := by
  have h' : ∀ u ∈ l', (Url.parse u).isSome := fun u hu => h u (hperm.mem_iff.mpr hu)
  rw [is_ssl_eq_any l h, is_ssl_eq_any l' h']
  congr 1
  cases hb : l.any urlIsHttps with
  | true =>
    obtain ⟨x, hx, hfx⟩ := List.any_eq_true.mp hb
    exact (List.any_eq_true.mpr ⟨x, hperm.mem_iff.mp hx, hfx⟩).symm
  | false =>
    cases hb' : l'.any urlIsHttps with
    | false => rfl
    | true =>
      obtain ⟨x, hx, hfx⟩ := List.any_eq_true.mp hb'
      exact absurd (List.any_eq_true.mpr ⟨x, hperm.mem_iff.mpr hx, hfx⟩)
        (by simp [hb])

/-- When every URL before an unparseable one parses to a non-"https" scheme,
`is_ssl` reaches the unparseable URL and dies with the parse-error message. -/
theorem is_ssl_error_before_https (pre : List String) (u : String) (rest : List String)
    (hpre : ∀ v ∈ pre, (Url.parse v).isSome ∧ urlIsHttps v = false)
    (hu : Url.parse u = none) :
    is_ssl (pre ++ u :: rest) = .error ("Error parsing url " ++ u) := by
  induction pre with
  | nil => simp [is_ssl, hu]
  | cons v pre ih =>
    obtain ⟨hv1, hv2⟩ := hpre v (by simp)
    cases hp : Url.parse v with
    | none => simp [hp] at hv1
    | some p =>
      have hps : p.scheme ≠ "https" := by
        intro hcon
        simp [urlIsHttps, hp, hcon] at hv2
      have hrec := ih (fun w hw => hpre w (by simp [hw]))
      simpa [is_ssl, hp, hps] using hrec

/-! Claim theorems. -/

/-- C1: whenever TLS context construction fails (`ssl_connector` returns an
error), `https_connector` is fatal to the process — it dies with the
descriptive message `pretty_panic!` formats — and it never returns a client
with a weaker or absent TLS configuration: any connector it does return wraps
exactly the successfully built TLS context, so there is no fallback to an
unauthenticated or unverified transport. -/
theorem https_connector_fatal_no_fallback (env : SslEnv) (cacert : String)
    (cert key : Option String) :
    (∀ e : ErrorStack, ssl_connector env cacert cert key = .error e →
      https_connector env cacert cert key =
        .error ("Error opening certificate files: " ++ e)) ∧
    (∀ hc : HttpsConnector, https_connector env cacert cert key = .ok hc →
      ssl_connector env cacert cert key = .ok hc.client.connector) := by
  constructor
  · intro e he
    simp [https_connector, he]
  · intro hc hok
    unfold https_connector at hok
    cases hs : ssl_connector env cacert cert key with
    | ok c =>
      rw [hs] at hok
      simp only [Except.ok.injEq] at hok
      subst hok
      rfl
    | error e =>
      rw [hs] at hok
      simp at hok

/-- Witness for C1 at a concrete failing configuration. -/
theorem https_connector_fatal_no_fallback_witness :
    https_connector envBadCa "ca.pem" none none =
      .error ("Error opening certificate files: " ++ "ca load failed") :=
  (https_connector_fatal_no_fallback envBadCa "ca.pem" none none).1 "ca load failed" rfl

/-- C2: with valid file paths (every relevant OpenSSL load succeeds),
`Auth::client` never dies, and the built client's transport capability
matches the variant: `CertAuth` yields an HTTPS client whose context holds
the CA plus both the client certificate and key (mutual TLS), `TokenAuth`
yields an HTTPS client whose context holds only the CA (no client identity),
and `NoAuth` yields the plain `Client::new()` with no TLS context. -/
theorem client_matches_variant (env : SslEnv) (ca cert key token : String)
    (hcl : env.set_cipher_list cipher_list = .ok ())
    (hca : env.set_ca_file ca = .ok ())
    (hcert : env.set_certificate_file cert X509Filetype.pem = .ok ())
    (hkey : env.set_private_key_file key X509Filetype.pem = .ok ()) :
    ((Auth.CertAuth ca cert key).client env =
      .ok (Client.with_connector ⟨⟨{
        method := SslMethod.tlsV1_2,
        cipher_list := cipher_list, ca_file := ca,
        certificate_file := some (cert, X509Filetype.pem),
        private_key_file := some (key, X509Filetype.pem) }⟩⟩)) ∧
    ((Auth.TokenAuth ca token).client env =
      .ok (Client.with_connector ⟨⟨{
        method := SslMethod.tlsV1_2,
        cipher_list := cipher_list, ca_file := ca,
        certificate_file := none, private_key_file := none }⟩⟩)) ∧
    (Auth.NoAuth.client env = .ok Client.new) := by
  refine ⟨?_, ?_, rfl⟩
  · have h := ssl_connector_ok env ca (some cert) (some key) hcl hca
      (fun c hc => by cases hc; exact hcert) (fun k hk => by cases hk; exact hkey)
    simp [Auth.client, https_connector, h]
  · have h := ssl_connector_ok env ca none none hcl hca
      (fun c hc => by cases hc) (fun k hk => by cases hk)
    simp [Auth.client, https_connector, h]

/-- Witness for C2 at a concrete all-valid environment. -/
theorem client_matches_variant_witness :
    (Auth.CertAuth "ca" "cert" "key").client envAllOk =
      .ok (Client.with_connector ⟨⟨{
        method := SslMethod.tlsV1_2,
        cipher_list := cipher_list, ca_file := "ca",
        certificate_file := some ("cert", X509Filetype.pem),
        private_key_file := some ("key", X509Filetype.pem) }⟩⟩) :=
  (client_matches_variant envAllOk "ca" "cert" "key" "tok" rfl rfl rfl rfl).1

/-- C3: under `TokenAuth` with token `T`, both `Auth::request` and
`Auth::auth_header` produce a request/builder carrying the single header
`X-Authentication` with value exactly `T`; under `CertAuth` and `NoAuth`
neither operation sets that header; and for the same mode and token the two
paths agree on the `X-Authentication` header. -/
theorem token_header_exactly {α : Type} (env : SslEnv) (ca cert key T : String)
    (m : Method) (u : Url) (b : RequestBuilder α)
    (hcl : env.set_cipher_list cipher_list = .ok ())
    (hca : env.set_ca_file ca = .ok ())
    (hcert : env.set_certificate_file cert X509Filetype.pem = .ok ())
    (hkey : env.set_private_key_file key X509Filetype.pem = .ok ()) :
    (∃ req, (Auth.TokenAuth ca T).request env m u = .ok req ∧
      Headers.get req.headers XAuthentication = some T ∧
      Headers.count req.headers XAuthentication = 1) ∧
    (∃ req, (Auth.CertAuth ca cert key).request env m u = .ok req ∧
      Headers.get req.headers XAuthentication = none) ∧
    (∃ req, Auth.NoAuth.request env m u = .ok req ∧
      Headers.get req.headers XAuthentication = none) ∧
    (Headers.get ((Auth.TokenAuth ca T).auth_header b).headers XAuthentication = some T ∧
      Headers.count ((Auth.TokenAuth ca T).auth_header b).headers XAuthentication = 1) ∧
    ((Auth.CertAuth ca cert key).auth_header b = b) ∧
    (Auth.NoAuth.auth_header b = b) ∧
    (∀ req, (Auth.TokenAuth ca T).request env m u = .ok req →
      Headers.get req.headers XAuthentication =
        Headers.get ((Auth.TokenAuth ca T).auth_header b).headers XAuthentication) := by
  have htok := ssl_connector_ok env ca none none hcl hca
    (fun c hc => by cases hc) (fun k hk => by cases hk)
  have hcertconn := ssl_connector_ok env ca (some cert) (some key) hcl hca
    (fun c hc => by cases hc; exact hcert) (fun k hk => by cases hk; exact hkey)
  have hreqT : (Auth.TokenAuth ca T).request env m u =
      .ok { method := m, url := u,
            connector := some { client := { connector :=
              { method := SslMethod.tlsV1_2, cipher_list := cipher_list,
                ca_file := ca, certificate_file := none,
                private_key_file := none } } },
            headers := Headers.set [] XAuthentication T } := by
    simp [Auth.request, https_connector, htok]
  have hreqC : (Auth.CertAuth ca cert key).request env m u =
      .ok { method := m, url := u,
            connector := some { client := { connector :=
              { method := SslMethod.tlsV1_2, cipher_list := cipher_list,
                ca_file := ca, certificate_file := some (cert, X509Filetype.pem),
                private_key_file := some (key, X509Filetype.pem) } } },
            headers := [] } := by
    simp [Auth.request, https_connector, hcertconn]
  refine ⟨⟨_, hreqT, headers_get_set_self [] XAuthentication T,
      headers_count_set [] XAuthentication T⟩,
    ⟨_, hreqC, rfl⟩,
    ⟨{ method := m, url := u, connector := none, headers := [] }, rfl, rfl⟩,
    ⟨headers_get_set_self b.headers XAuthentication T,
      headers_count_set b.headers XAuthentication T⟩, rfl, rfl, ?_⟩
  intro req hreq
  rw [hreqT, Except.ok.injEq] at hreq
  rw [← hreq]
  exact (headers_get_set_self [] XAuthentication T).trans
    (headers_get_set_self b.headers XAuthentication T).symm

/-- Witness for C3 at a concrete environment, builder and token. -/
theorem token_header_exactly_witness :
    Headers.get ((Auth.TokenAuth "ca" "tok").auth_header
      ({ headers := [("Accept", "text")], rest := 0 } : RequestBuilder Nat)).headers
      XAuthentication = some "tok" :=
  (token_header_exactly envAllOk "ca" "cert" "key" "tok" Method.Get
    { scheme := "https", rest := "//a" } _ rfl rfl rfl rfl).2.2.2.1.1

/-- C4 counterexample: the allow-list token `AES128-SHA` (static-RSA key
exchange, CBC mode with HMAC-SHA1) is neither a forward-secrecy suite nor an
AEAD suite, so the allow-list does not contain only such suites. -/
theorem cipher_allowlist_contains_non_fs_non_aead :
    allowTokens.contains "AES128-SHA" = true ∧
    isForwardSecrecySuite "AES128-SHA" = false ∧
    isAeadSuite "AES128-SHA" = false :=
  ⟨by decide, by decide, by decide⟩

/-- C4 (amended): every suite of the cipher-suite allow-list is a
forward-secrecy or AEAD suite except the two static-RSA CBC suites
`CAMELLIA128-SHA` and `AES128-SHA`, and the list explicitly excludes null,
export-grade, DES/3DES, RC4 and MD5-based suites via the exclusion tokens
`!aNULL`, `!eNULL`, `!EXPORT`, `!DES`, `!3DES`, `!RC4`, `!MD5`. -/
theorem cipher_allowlist_policy :
    allowTokens.all (fun t => t == "CAMELLIA128-SHA" || t == "AES128-SHA" ||
      isForwardSecrecySuite t || isAeadSuite t) = true ∧
    exclusionTokens = ["!aNULL", "!eNULL", "!EXPORT", "!DES", "!3DES", "!RC4", "!MD5"] :=
  ⟨by decide, by decide⟩

/-- C5: every TLS context `ssl_connector` successfully builds is pinned to
exactly the TLS 1.2 method (`TLSv1_2_method()`), not the version-flexible
negotiating method, for every environment and path configuration. -/
theorem ssl_connector_pins_tlsv1_2 (env : SslEnv) (cacert : String)
    (cert key : Option String) (c : SslConnector)
    (h : ssl_connector env cacert cert key = .ok c) :
    c.method = SslMethod.tlsV1_2 ∧ c.method ≠ SslMethod.tls := by
  rw [ssl_connector_ok_inv env cacert cert key c h]
  exact ⟨rfl, by simp⟩

/-- Witness for C5 at a concrete successful construction. -/
theorem ssl_connector_pins_tlsv1_2_witness :
    ({ method := SslMethod.tlsV1_2
       cipher_list := cipher_list
       ca_file := "ca"
       certificate_file := none
       private_key_file := none } : SslConnector).method = SslMethod.tlsV1_2 ∧
    ({ method := SslMethod.tlsV1_2
       cipher_list := cipher_list
       ca_file := "ca"
       certificate_file := none
       private_key_file := none } : SslConnector).method ≠ SslMethod.tls :=
  ssl_connector_pins_tlsv1_2 envAllOk "ca" none none _ rfl

/-- C6: `ssl_connector` surfaces failures by configuration class — when the
CA file load fails its error is returned (the `CaLoadFailed` class); when the
CA loads but the given client certificate fails to load, that error is
returned (the `ClientCertLoadFailed` class); and when the given client key
fails to load, that error is returned (the `ClientKeyLoadFailed` class) —
each propagated by the corresponding `try!`. -/
theorem ssl_connector_error_taxonomy (env : SslEnv) (ca c k : String)
    (cert key : Option String) (e : ErrorStack)
    (hcl : env.set_cipher_list cipher_list = .ok ()) :
    (env.set_ca_file ca = .error e → ssl_connector env ca cert key = .error e) ∧
    (env.set_ca_file ca = .ok () →
      env.set_certificate_file c X509Filetype.pem = .error e →
      ssl_connector env ca (some c) key = .error e) ∧
    (env.set_ca_file ca = .ok () →
      env.set_certificate_file c X509Filetype.pem = .ok () →
      env.set_private_key_file k X509Filetype.pem = .error e →
      ssl_connector env ca (some c) (some k) = .error e) ∧
    (env.set_ca_file ca = .ok () →
      env.set_private_key_file k X509Filetype.pem = .error e →
      ssl_connector env ca none (some k) = .error e) := by
  refine ⟨?_, ?_, ?_, ?_⟩
  · intro h1
    simp [ssl_connector, hcl, h1]
  · intro h1 h2
    simp [ssl_connector, hcl, h1, h2]
  · intro h1 h2 h3
    simp [ssl_connector, hcl, h1, h2, h3]
  · intro h1 h2
    simp [ssl_connector, hcl, h1, h2]

/-- Witness for C6 at a concrete environment whose CA load fails. -/
theorem ssl_connector_error_taxonomy_witness :
    ssl_connector envBadCa "ca" none none = .error "ca load failed" :=
  (ssl_connector_error_taxonomy envBadCa "ca" "c" "k" none none "ca load failed" rfl).1 rfl

/-- C7: on a list whose URLs all parse, `is_ssl` returns `Ok true` iff at
least one URL has scheme "https" and `Ok false` iff none does; it returns
`Ok false` on the empty list; and it short-circuits on the first match: a
leading "https" URL yields `Ok true` for every tail whatsoever. -/
theorem is_ssl_iff_any_https (urls : List String)
    (h : ∀ u ∈ urls, (Url.parse u).isSome) :
    (is_ssl urls = .ok true ↔
      ∃ u ∈ urls, ∃ p, Url.parse u = some p ∧ p.scheme = "https") ∧
    (is_ssl urls = .ok false ↔
      ∀ u ∈ urls, ∀ p, Url.parse u = some p → p.scheme ≠ "https") ∧
    (is_ssl ([] : List String) = .ok false) ∧
    (∀ u rest p, Url.parse u = some p → p.scheme = "https" →
      is_ssl (u :: rest) = .ok true) := by
  have hmain := is_ssl_eq_any urls h
  refine ⟨?_, ?_, rfl, ?_⟩
  · rw [hmain]
    constructor
    · intro hok
      have : urls.any urlIsHttps = true := by
        simpa using hok
      obtain ⟨u, hu, hf⟩ := List.any_eq_true.mp this
      exact ⟨u, hu, (urlIsHttps_eq_true u).mp hf⟩
    · intro ⟨u, hu, hex⟩
      have : urls.any urlIsHttps = true :=
        List.any_eq_true.mpr ⟨u, hu, (urlIsHttps_eq_true u).mpr hex⟩
      rw [this]
  · rw [hmain]
    constructor
    · intro hok u hu p hp
      have hall : urls.any urlIsHttps = false := by
        simpa using hok
      have := List.any_eq_false.mp hall u hu
      exact ((urlIsHttps_eq_false u).mp (by simpa using this)) p hp
    · intro hall
      have : urls.any urlIsHttps = false :=
        List.any_eq_false.mpr (fun u hu => by
          simpa using (urlIsHttps_eq_false u).mpr (hall u hu))
      rw [this]
  · intro u rest p hp hs
    simp [is_ssl, hp, hs]

/-- Witness for C7 at concrete URL lists. -/
theorem is_ssl_iff_any_https_witness :
    is_ssl ["http://a", "https://b"] = .ok true :=
  (is_ssl_iff_any_https ["http://a", "https://b"] (by decide)).1.mpr
    ⟨"https://b", by simp, { scheme := "https", rest := "//b" }, by decide, rfl⟩

/-- C8 counterexample: the list `["https://a", "not a url"]` contains an
unparseable URL, yet `is_ssl` is not fatal on it — the `any` short-circuits
at the leading "https" URL and returns `Ok true` — so being fatal "regardless
of where the unparseable URL appears" and order-insensitivity fail. -/
theorem is_ssl_not_fatal_after_https :
    Url.parse "not a url" = none ∧
    is_ssl ["https://a", "not a url"] = .ok true :=
  ⟨by decide, rfl⟩

/-- C8 (amended): `is_ssl` is fatal — it dies with the parse-error message
instead of returning a boolean — exactly when an unparseable URL is reached,
i.e. when every URL before it parses with a scheme other than "https"; URLs
after the first "https" URL are never examined, so the result is
order-insensitive only over lists whose URLs all parse. -/
theorem is_ssl_fatal_before_first_https (pre : List String) (u : String)
    (rest : List String)
    (hpre : ∀ v ∈ pre, (Url.parse v).isSome ∧ urlIsHttps v = false)
    (hu : Url.parse u = none) :
    (is_ssl (pre ++ u :: rest) = .error ("Error parsing url " ++ u)) ∧
    (∀ l l' : List String, l.Perm l' → (∀ v ∈ l, (Url.parse v).isSome) →
      is_ssl l = is_ssl l') :=
  ⟨is_ssl_error_before_https pre u rest hpre hu, is_ssl_perm⟩

/-- Witness for C8 (amended) at a concrete list with an unparseable URL
before the first "https" URL. -/
theorem is_ssl_fatal_before_first_https_witness :
    is_ssl ["http://a", "not a url", "https://b"] =
      .error ("Error parsing url " ++ "not a url") :=
  (is_ssl_fatal_before_first_https ["http://a"] "not a url" ["https://b"]
    (by decide) (by decide)).1

/-- C9: `ssl_connector` performs no eager validation that client certificate
and key paths are supplied together — a call supplying only one of the two is
accepted without any dedicated pairing error, and only the supplied file is
loaded (the built context records the other as absent, and success does not
depend on the outcome of the unused load operation). -/
theorem ssl_connector_no_pairing_validation (env : SslEnv) (ca c k : String)
    (hcl : env.set_cipher_list cipher_list = .ok ())
    (hca : env.set_ca_file ca = .ok ()) :
    (env.set_certificate_file c X509Filetype.pem = .ok () →
      ssl_connector env ca (some c) none =
        .ok { method := SslMethod.tlsV1_2
              cipher_list := cipher_list
              ca_file := ca
              certificate_file := some (c, X509Filetype.pem)
              private_key_file := none }) ∧
    (env.set_private_key_file k X509Filetype.pem = .ok () →
      ssl_connector env ca none (some k) =
        .ok { method := SslMethod.tlsV1_2
              cipher_list := cipher_list
              ca_file := ca
              certificate_file := none
              private_key_file := some (k, X509Filetype.pem) }) := by
  constructor
  · intro hc
    simpa using ssl_connector_ok env ca (some c) none hcl hca
      (fun x hx => by cases hx; exact hc) (fun x hx => by cases hx)
  · intro hk
    simpa using ssl_connector_ok env ca none (some k) hcl hca
      (fun x hx => by cases hx) (fun x hx => by cases hx; exact hk)

/-- Witness for C9: in an environment whose key loads always fail, the
certificate-only call still succeeds — the key load is never consulted. -/
theorem ssl_connector_no_pairing_validation_witness :
    ssl_connector envBadKey "ca" (some "cert") none =
      .ok { method := SslMethod.tlsV1_2
            cipher_list := cipher_list
            ca_file := "ca"
            certificate_file := some ("cert", X509Filetype.pem)
            private_key_file := none } :=
  (ssl_connector_no_pairing_validation envBadKey "ca" "cert" "key" rfl rfl).1 rfl

/-- C10: `Auth::auth_header` modifies at most the `X-Authentication` header —
under `TokenAuth` it sets it (replacing any present value) to the configured
token while leaving every other header and every non-header field of the
builder unchanged, and under `CertAuth` and `NoAuth` it returns the builder
completely unchanged. -/
theorem auth_header_frame {α : Type} (ca cert key T : String) (b : RequestBuilder α) :
    (((Auth.TokenAuth ca T).auth_header b).rest = b.rest ∧
      Headers.get ((Auth.TokenAuth ca T).auth_header b).headers XAuthentication = some T ∧
      (∀ n, n ≠ XAuthentication →
        Headers.get ((Auth.TokenAuth ca T).auth_header b).headers n =
          Headers.get b.headers n)) ∧
    ((Auth.CertAuth ca cert key).auth_header b = b) ∧
    (Auth.NoAuth.auth_header b = b) := by
  refine ⟨⟨rfl, ?_, ?_⟩, rfl, rfl⟩
  · exact headers_get_set_self b.headers XAuthentication T
  · intro n hn
    exact headers_get_set_ne b.headers XAuthentication T n hn

/-- Witness for C10 at a concrete builder carrying another header and a stale
`X-Authentication` value: the token replaces the stale value and the other
header survives. -/
theorem auth_header_frame_witness :
    Headers.get ((Auth.TokenAuth "ca" "tok").auth_header
      ({ headers := [("Accept", "text"), (XAuthentication, "old")], rest := 7 }
        : RequestBuilder Nat)).headers XAuthentication = some "tok" ∧
    Headers.get ((Auth.TokenAuth "ca" "tok").auth_header
      ({ headers := [("Accept", "text"), (XAuthentication, "old")], rest := 7 }
        : RequestBuilder Nat)).headers "Accept" = some "text" :=
  ⟨(auth_header_frame "ca" "cert" "key" "tok" _).1.2.1,
    (auth_header_frame "ca" "cert" "key" "tok" _).1.2.2 "Accept" (by decide)⟩

end Kitchensink
